import Mathlib

/-!
Verification of the owncast-commands chat bot against its specification.

The development shallowly embeds the Go sources:
* the `Message` wire model with its JSON `omitempty` encoding,
* `Config.validate` / `NewChatService` (connection establishment),
* one iteration of `listenRead` (decode-and-route) and of `listenWrite`
  (keepalive auto-reply and content dispatch),
* `ChatService.Close` (shutdown handshake with deadline),
* `getServerStatus` / `Uptime` (cached status lookup), and
* `ReadCommandsFromFile` (command-file loading).

External effects are made explicit: channel sends become lists of enqueued
messages, log calls become lists of recorded entries, the websocket dialer
and `send` become parameters carrying their outcome, and invocation counts
are returned alongside results.  Machine time (`time.Time`) is modelled as
a natural number of nanoseconds whose zero value is Go's zero time.
-/

namespace OwncastCommands

/-- Message-kind constant `CHAT` from the source. -/
def CHAT : String := "CHAT"

/-- Message-kind constant `PING` from the source. -/
def PING : String := "PING"

/-- Message-kind constant `PONG` from the source. -/
def PONG : String := "PONG"

/-- Message-kind constant `SYSTEM` from the source. -/
def SYSTEM : String := "SYSTEM"

/-- Message-kind constant `NAME_CHANGE` from the source. -/
def NAME_CHANGE : String := "NAME_CHANGE"

/-- Structure `Message` from the source (Go fields `Author`, `Body`, `ID`,
`Type`, `Visible`, `Timestamp`).  `time.Time` is modelled as a `Nat`
(nanoseconds; `0` is Go's zero time).  Go zero values (`""`, `false`, `0`)
are the "absent" values of the optional fields. -/
structure Message where
  author : String
  body : String
  id : String
  type : String
  visible : Bool
  timestamp : Nat
deriving DecidableEq, Repr

/-- JSON wire form of a `Message`: each `omitempty` field is either present
(`some`) or omitted (`none`); `type` has no `omitempty` tag and is always
present. -/
structure WireMessage where
  author : Option String
  body : Option String
  id : Option String
  type : String
  visible : Option Bool
  timestamp : Option Nat
deriving DecidableEq, Repr

/-- Go `encoding/json` `omitempty` on a `string` field: omitted exactly when
the string is empty. -/
def omitemptyString (s : String) : Option String :=
  if s = "" then none else some s

/-- Go `encoding/json` `omitempty` on a `bool` field: omitted exactly when
the value is `false`. -/
def omitemptyBool (b : Bool) : Option Bool :=
  if b = false then none else some b

/-- `json.Marshal` applied to a `Message`.  Per `encoding/json`, `omitempty`
omits empty strings and `false`, but has no effect on a struct-typed field:
`Timestamp time.Time` is therefore always emitted, even at the zero time. -/
def Message.encode (m : Message) : WireMessage :=
  { author := omitemptyString m.author
    body := omitemptyString m.body
    id := omitemptyString m.id
    type := m.type
    visible := omitemptyBool m.visible
    timestamp := some m.timestamp }

/-- `json.Unmarshal` of a wire form into a `Message`: a field absent from the
wire form leaves the Go zero value in place. -/
def WireMessage.decode (w : WireMessage) : Message :=
  { author := w.author.getD ""
    body := w.body.getD ""
    id := w.id.getD ""
    type := w.type
    visible := w.visible.getD false
    timestamp := w.timestamp.getD 0 }

/-- Structure `Config` from the source.  The function-valued field
`CommandExecutorFunc` is modelled by whether it is non-nil. -/
structure Config where
  scheme : String
  host : String
  path : String
  hasCommandExecutorFunc : Bool
deriving DecidableEq, Repr

/-- Go's `url.Parse` failure condition, modelled from its documented
behaviour: a URL containing an ASCII control character is rejected
(`net/url: invalid control character in URL`); other composed
scheme://host/path strings parse. -/
def urlParseOk (s : String) : Bool :=
  s.toList.all (fun c => decide (0x20 ≤ c.toNat) && decide (c.toNat ≠ 0x7f))

/-- Method `Config.validate` from the source: checks run in order (scheme,
host, executor function, composed URL), returning the first failure's error
message, or `none` on success. -/
def Config.validate (c : Config) : Option String :=
  if c.scheme = "" then some "missing websocket scheme"
  else if c.host = "" then some "missing websocket host"
  else if c.hasCommandExecutorFunc = false then some "missing command executor function"
  else if urlParseOk (c.scheme ++ "://" ++ c.host ++ c.path) = false then
    some "invalid websocket url"
  else none

/-- Outcome of `NewChatService`: the returned error (if any), whether a
`ChatService` session was created, and how many times the websocket dialer
was invoked. -/
structure ConnectResult where
  error : Option String
  sessionCreated : Bool
  dialCalls : Nat
deriving DecidableEq, Repr

/-- Function `NewChatService` from the source.  `dialResult` carries the
outcome the dialer would produce were it invoked; validation failure returns
the `ConfigError` before any dial, dial failure returns that error, and
success yields a session.  `dialCalls` counts dialer invocations. -/
def NewChatService (c : Config) (dialResult : Except String Unit) : ConnectResult :=
  match c.validate with
  | some e => { error := some e, sessionCreated := false, dialCalls := 0 }
  | none =>
    match dialResult with
    | .error e => { error := some e, sessionCreated := false, dialCalls := 1 }
    | .ok _ => { error := none, sessionCreated := true, dialCalls := 1 }

/-- Result of `ChatService.Close`: `ok` (nil error), the wrapped write
error, or `ErrCloseConnectionTimeout`. -/
inductive CloseResult where
  | ok : CloseResult
  | ioError (msg : String) : CloseResult
  | timeoutErr : CloseResult
deriving DecidableEq, Repr

/-- Method `ChatService.Close` from the source.  `writeCloseErr` is the
outcome of writing the close control frame; `doneFirst` records which of
the two `select` cases (`doneCh` closed vs. context deadline) becomes ready
first. -/
def ChatService.Close (writeCloseErr : Option String) (doneFirst : Bool) : CloseResult :=
  match writeCloseErr with
  | some e => .ioError ("ChatService.Close(): " ++ e)
  | none => if doneFirst then .ok else .timeoutErr

/-- Effects of one successful-decode iteration of `listenRead`: messages
enqueued to the keepalive (`pingCh`) and content (`chatCh`) channels, the
debug trace entries, and the warning-log entries (each warning is recorded
as the message it formats). -/
structure ReadStepResult where
  pingEnqueued : List Message
  chatEnqueued : List Message
  debugLogs : List String
  warnLogs : List Message
deriving DecidableEq, Repr

/-- One iteration of `listenRead` after a successful `ReadJSON`: the
`log.Debugf("Received %s request", ...)` trace always fires, then the
`switch` on `message.Type` routes `PING` to `pingCh`, `CHAT` to `chatCh`,
ignores `SYSTEM` and `NAME_CHANGE`, and logs a warning by default. -/
def listenReadStep (m : Message) : ReadStepResult :=
  let dbg := ["Received " ++ m.type ++ " request"]
  if m.type = PING then
    { pingEnqueued := [m], chatEnqueued := [], debugLogs := dbg, warnLogs := [] }
  else if m.type = CHAT then
    { pingEnqueued := [], chatEnqueued := [m], debugLogs := dbg, warnLogs := [] }
  else if m.type = SYSTEM then
    { pingEnqueued := [], chatEnqueued := [], debugLogs := dbg, warnLogs := [] }
  else if m.type = NAME_CHANGE then
    { pingEnqueued := [], chatEnqueued := [], debugLogs := dbg, warnLogs := [] }
  else
    { pingEnqueued := [], chatEnqueued := [], debugLogs := dbg, warnLogs := [m] }

/-- The `PONG` reply constructed by `listenWrite`'s keepalive branch:
`&Message{Type: PONG}`, every other field at its zero value. -/
def pongMessage : Message :=
  { author := "", body := "", id := "", type := PONG, visible := false, timestamp := 0 }

/-- Effects of one `listenWrite` iteration: the arguments passed to
`ChatService.send`, the structured fields attached to an error log, the
error values logged, and whether the loop continues to its next
iteration. -/
structure WriteStepResult where
  sendCalls : List Message
  errorLogFields : List (String × String)
  errorLogged : List String
  continues : Bool
deriving DecidableEq, Repr

/-- The `case <-c.pingCh` branch of `listenWrite`: the received message is
discarded by the channel receive, a fresh `PONG` message is sent, and a send
failure (`sendErr`) is logged with `WithField("body", m.Body)` and
`WithField("type", m.Type)` of the constructed reply before `continue`. -/
def listenWritePing (received : Message) (sendErr : Option String) : WriteStepResult :=
  let m := pongMessage
  match received, sendErr with
  | _, none =>
    { sendCalls := [m], errorLogFields := [], errorLogged := [], continues := true }
  | _, some e =>
    { sendCalls := [m], errorLogFields := [("body", m.body), ("type", m.type)],
      errorLogged := [e], continues := true }

/-- Effects of the `case input := <-c.chatCh` branch of `listenWrite`:
the arguments the spawned goroutine passes to `jobFunc` and to
`ChatService.send`, plus the error-log effects of a failed send. -/
structure ChatStepResult where
  jobCalls : List Message
  sendCalls : List Message
  errorLogFields : List (String × String)
  errorLogged : List String
  continues : Bool
deriving DecidableEq, Repr

/-- The content branch of `listenWrite`: invokes `c.jobFunc` once with the
received message; a `nil` (`none`) result sends nothing, otherwise exactly
the returned message is passed to `ChatService.send`, and a send failure
(`sendErr`) is logged with the output's `body` and `type` fields. -/
def listenWriteChat (jobFunc : Message → Option Message) (input : Message)
    (sendErr : Option String) : ChatStepResult :=
  match jobFunc input with
  | none =>
    { jobCalls := [input], sendCalls := [], errorLogFields := [],
      errorLogged := [], continues := true }
  | some output =>
    match sendErr with
    | none =>
      { jobCalls := [input], sendCalls := [output], errorLogFields := [],
        errorLogged := [], continues := true }
    | some e =>
      { jobCalls := [input], sendCalls := [output],
        errorLogFields := [("body", output.body), ("type", output.type)],
        errorLogged := [e], continues := true }

/-- Structure `ServerStatus` from `placeholder.go`; the two `time.Time`
fields are modelled as `Nat` nanoseconds. -/
structure ServerStatus where
  online : Bool
  viewerCount : Int
  overallMaxViewerCount : Int
  sessionMaxViewerCount : Int
  lastConnectTime : Nat
  lastDisconnectTime : Nat
  versionNumber : String
deriving DecidableEq, Repr

/-- Result of a `getServerStatus` call: the returned value or error, the
state of the `serverStatus` singleton afterwards, and the number of HTTP
requests performed by the call. -/
structure StatusLookupResult where
  result : Except String ServerStatus
  cache : Option ServerStatus
  httpRequests : Nat
deriving Repr

/-- Function `getServerStatus` from `placeholder.go`.  `cache` is the
`serverStatus` singleton before the call; `fetch` carries the combined
outcome of the HTTP GET and JSON decode were they performed.  A cached value
is returned with no request; otherwise the fetch runs, and only a success is
stored in the singleton. -/
def getServerStatus (cache : Option ServerStatus) (fetch : Except String ServerStatus) :
    StatusLookupResult :=
  match cache with
  | some ss => { result := .ok ss, cache := some ss, httpRequests := 0 }
  | none =>
    match fetch with
    | .error e => { result := .error e, cache := none, httpRequests := 1 }
    | .ok ss => { result := .ok ss, cache := some ss, httpRequests := 1 }

/-- Go's `Duration.Truncate(time.Second).String()` on a nanosecond count,
with the rendering abbreviated to a whole-second count (the claims concern
which timestamp the duration is computed from, not the text format). -/
def durationSecondsString (ns : Int) : String :=
  toString (ns / 1000000000) ++ "s"

/-- The `Uptime` placeholder from `placeholder.go`: looks the status up
through `getServerStatus`; a failure is logged and degrades to `""`, a
success yields the elapsed time since `lastConnectTime`.  Returns the
rendered string together with the lookup's cache state and request count. -/
def Uptime (now : Int) (cache : Option ServerStatus)
    (fetch : Except String ServerStatus) : String × Option ServerStatus × Nat :=
  match getServerStatus cache fetch with
  | { result := .error _, cache := c, httpRequests := n } => ("", c, n)
  | { result := .ok ss, cache := c, httpRequests := n } =>
    (durationSecondsString (now - (ss.lastConnectTime : Int)), c, n)

/-- Structure `Command` from `commands.go`. -/
structure Command where
  trigger : String
  template : String
deriving DecidableEq, Repr

/-- Outcome of `ReadCommandsFromFile`: an error returned to the caller, a
`log.Fatalf` that terminates the whole process, or the parsed commands. -/
inductive ReadCommandsOutcome where
  | err (e : String) : ReadCommandsOutcome
  | fatal (msg : String) : ReadCommandsOutcome
  | ok (cmds : List Command) : ReadCommandsOutcome
deriving DecidableEq, Repr

/-- Function `ReadCommandsFromFile` from `commands.go`.  `readFile` carries
the outcome of `ioutil.ReadFile`; `unmarshal` models `yaml.Unmarshal` into
the `commands:` list.  A read failure is returned; a parse failure hits
`log.Fatalf("error: %v", err)` and never returns. -/
def ReadCommandsFromFile (readFile : Except String String)
    (unmarshal : String → Except String (List Command)) : ReadCommandsOutcome :=
  match readFile with
  | .error e => .err e
  | .ok data =>
    match unmarshal data with
    | .error e => .fatal ("error: " ++ e)
    | .ok f => .ok f

/-- Claim C1, counterexample: the all-absent `Message` does not encode to a
wire form that omits every optional field — `timestamp` is still present,
because `omitempty` has no effect on the struct-typed `time.Time` field. -/
theorem c1_counterexample :
    ¬ ((Message.encode ⟨"", "", "", CHAT, false, 0⟩).author = none ∧
       (Message.encode ⟨"", "", "", CHAT, false, 0⟩).body = none ∧
       (Message.encode ⟨"", "", "", CHAT, false, 0⟩).id = none ∧
       (Message.encode ⟨"", "", "", CHAT, false, 0⟩).visible = none ∧
       (Message.encode ⟨"", "", "", CHAT, false, 0⟩).timestamp = none) := by
  decide

/-- Claim C1 (amended): encoding then decoding a `Message` whose optional
fields are all populated reproduces it exactly; encoding a `Message` whose
optional fields are all absent omits `author`, `body`, `id` and `visible`
from the wire form, but the wire form still carries `timestamp` (as the
zero time) alongside `type`. -/
theorem c1_roundtrip_and_omission :
    (∀ m : Message, m.author ≠ "" → m.body ≠ "" → m.id ≠ "" → m.visible = true →
      m.timestamp ≠ 0 → WireMessage.decode (Message.encode m) = m) ∧
    (∀ t : String,
      Message.encode ⟨"", "", "", t, false, 0⟩ =
        ⟨none, none, none, t, none, some 0⟩) := by
  constructor
  · intro m ha hb hi hv _
    cases m
    simp_all [Message.encode, WireMessage.decode, omitemptyString, omitemptyBool]
  · intro t
    rfl

/-- Claim C1 witness: the round-trip instantiated at a fully populated
message. -/
theorem c1_roundtrip_witness :
    WireMessage.decode (Message.encode ⟨"alice", "hi", "42", CHAT, true, 5⟩) =
      ⟨"alice", "hi", "42", CHAT, true, 5⟩ :=
  c1_roundtrip_and_omission.1 ⟨"alice", "hi", "42", CHAT, true, 5⟩
    (by decide) (by decide) (by decide) rfl (by decide)

/-- Claim C2: `Close` returns the wrapped `IOError` whenever writing the
close frame fails, independently of the completion signal and deadline;
otherwise it returns `ok` exactly when the completion signal fires first
and the timeout error exactly when the deadline elapses first. -/
theorem c2_close_behaviour :
    (∀ (e : String) (d : Bool),
      ChatService.Close (some e) d = .ioError ("ChatService.Close(): " ++ e)) ∧
    (∀ d : Bool,
      (ChatService.Close none d = .ok ↔ d = true) ∧
      (ChatService.Close none d = .timeoutErr ↔ d = false)) := by
  refine ⟨fun e d => rfl, fun d => ?_⟩
  cases d <;> simp [ChatService.Close]

/-- Claim C3: a received `PING` is enqueued to the keepalive channel, and
the write loop's keepalive branch passes exactly one message to `send`,
namely the fresh `PONG` whose every other field is the zero value; the
branch's behaviour does not depend on the received message at all. -/
theorem c3_ping_pong :
    ∀ (m : Message) (sendErr : Option String), m.type = PING →
      (listenReadStep m).pingEnqueued = [m] ∧
      (listenWritePing m sendErr).sendCalls = [pongMessage] ∧
      pongMessage.type = PONG ∧ pongMessage.author = "" ∧ pongMessage.body = "" ∧
      pongMessage.id = "" ∧ pongMessage.visible = false ∧ pongMessage.timestamp = 0 ∧
      (∀ m' : Message, listenWritePing m sendErr = listenWritePing m' sendErr) := by
  intro m sendErr h
  refine ⟨?_, ?_, rfl, rfl, rfl, rfl, rfl, rfl, ?_⟩
  · simp [listenReadStep, h]
  · cases sendErr <;> rfl
  · intro m'
    cases sendErr <;> rfl

/-- Claim C3 witness: a concrete `PING` message yields exactly the fresh
`PONG` reply. -/
theorem c3_ping_pong_witness :
    (listenWritePing ⟨"x", "y", "z", PING, true, 3⟩ none).sendCalls =
      [pongMessage] :=
  (c3_ping_pong ⟨"x", "y", "z", PING, true, 3⟩ none rfl).2.1

/-- Claim C4: whenever the scheme is empty, the host is empty, the command
executor function is absent, or the composed URL is unparseable, the
service constructor returns exactly the validation error, creates no
session, and never invokes the dialer. -/
theorem c4_config_validation :
    ∀ (c : Config) (dialResult : Except String Unit),
      (c.scheme = "" ∨ c.host = "" ∨ c.hasCommandExecutorFunc = false ∨
        urlParseOk (c.scheme ++ "://" ++ c.host ++ c.path) = false) →
      c.validate.isSome = true ∧
      NewChatService c dialResult = ⟨c.validate, false, 0⟩ := by
  intro c d h
  have hv : c.validate.isSome = true := by
    rcases h with h | h | h | h <;>
      simp only [Config.validate, h] <;> split_ifs <;> simp
  obtain ⟨e, he⟩ := Option.isSome_iff_exists.mp hv
  exact ⟨hv, by simp [NewChatService, he]⟩

/-- Claim C4 witness: an empty host yields the `ConfigError` and zero dial
calls. -/
theorem c4_config_validation_witness :
    NewChatService ⟨"wss", "", "/entry", true⟩ (.ok ()) =
      ⟨some "missing websocket host", false, 0⟩ :=
  ((c4_config_validation ⟨"wss", "", "/entry", true⟩ (.ok ())
    (Or.inr (Or.inl rfl))).2).trans (by decide)

/-- Claim C5, counterexample: a `SYSTEM` message does produce a log — the
read loop emits its `Received ... request` debug trace for every decoded
message — so "no log of any kind" fails. -/
theorem c5_counterexample :
    (listenReadStep ⟨"", "", "", SYSTEM, false, 0⟩).debugLogs ≠ [] := by
  decide

/-- Claim C5 (amended): `SYSTEM` and `NAME_CHANGE` messages produce no
outbound message, no enqueue and no warning — only the per-message debug
trace; a message whose type is outside the routing cases produces no
outbound message, no enqueue, and exactly one warning. -/
theorem c5_routing :
    (∀ m : Message, m.type = SYSTEM ∨ m.type = NAME_CHANGE →
      (listenReadStep m).pingEnqueued = [] ∧
      (listenReadStep m).chatEnqueued = [] ∧
      (listenReadStep m).warnLogs = [] ∧
      (listenReadStep m).debugLogs = ["Received " ++ m.type ++ " request"]) ∧
    (∀ m : Message, m.type ≠ PING → m.type ≠ CHAT → m.type ≠ SYSTEM →
      m.type ≠ NAME_CHANGE →
      (listenReadStep m).pingEnqueued = [] ∧
      (listenReadStep m).chatEnqueued = [] ∧
      (listenReadStep m).warnLogs = [m]) := by
  constructor
  · rintro m (h | h) <;>
      simp [listenReadStep, h, PING, CHAT, SYSTEM, NAME_CHANGE]
  · intro m h1 h2 h3 h4
    simp [listenReadStep, h1, h2, h3, h4]

/-- Claim C5 witness: a concrete `SYSTEM` message produces no warning and
no enqueue. -/
theorem c5_routing_witness :
    (listenReadStep ⟨"", "", "", SYSTEM, false, 0⟩).warnLogs = [] :=
  (c5_routing.1 ⟨"", "", "", SYSTEM, false, 0⟩ (Or.inl rfl)).2.2.1

/-- Claim C6, counterexample: the send-failure log of the keepalive branch
carries no `author` field — only `body` and `type` are attached. -/
theorem c6_counterexample :
    ¬ ("author" ∈ ((listenWritePing ⟨"", "", "", PING, false, 0⟩
      (some "write failed")).errorLogFields.map Prod.fst)) := by
  decide

/-- Claim C6 (amended): when sending the `PONG` reply fails, the failure is
logged with the constructed reply's `body` and `type` fields (no `author`
field) together with the error, and the loop continues to its next
iteration. -/
theorem c6_pong_send_failure :
    ∀ (m : Message) (e : String),
      (listenWritePing m (some e)).errorLogFields =
        [("body", pongMessage.body), ("type", pongMessage.type)] ∧
      (listenWritePing m (some e)).errorLogged = [e] ∧
      (listenWritePing m (some e)).continues = true := by
  intro m e
  exact ⟨rfl, rfl, rfl⟩

/-- Claim C7: the content branch invokes the processing capability exactly
once with the received message; a `nil` result passes nothing to `send`,
and a non-nil result passes exactly that message, unchanged, to `send`. -/
theorem c7_chat_dispatch :
    ∀ (jobFunc : Message → Option Message) (input : Message)
      (sendErr : Option String), input.type = CHAT →
      (listenWriteChat jobFunc input sendErr).jobCalls = [input] ∧
      (jobFunc input = none →
        (listenWriteChat jobFunc input sendErr).sendCalls = []) ∧
      (∀ output, jobFunc input = some output →
        (listenWriteChat jobFunc input sendErr).sendCalls = [output]) := by
  intro f input sendErr _
  cases hf : f input <;> cases sendErr <;> simp [listenWriteChat, hf]

/-- Claim C7 witness: a concrete `CHAT` message whose processor returns a
reply has exactly that reply passed to `send`. -/
theorem c7_chat_dispatch_witness :
    (listenWriteChat (fun m => some { m with author := "Bot" })
      ⟨"u", "!hi", "1", CHAT, true, 7⟩ none).sendCalls =
      [⟨"Bot", "!hi", "1", CHAT, true, 7⟩] :=
  (c7_chat_dispatch (fun m => some { m with author := "Bot" })
    ⟨"u", "!hi", "1", CHAT, true, 7⟩ none rfl).2.2
    ⟨"Bot", "!hi", "1", CHAT, true, 7⟩ rfl

/-- Claim C8: a received `PONG` falls through to the read loop's default
branch — it is enqueued nowhere and discarded with exactly one warning
logged, just as an unrecognized type would be. -/
theorem c8_pong_default_branch :
    ∀ m : Message, m.type = PONG →
      listenReadStep m = ⟨[], [], ["Received " ++ m.type ++ " request"], [m]⟩ ∧
      (listenReadStep m).warnLogs.length = 1 := by
  intro m h
  refine ⟨?_, ?_⟩ <;>
    simp [listenReadStep, h, PING, CHAT, SYSTEM, NAME_CHANGE, PONG]

/-- Claim C8 witness: a concrete `PONG` message is warned about and not
enqueued. -/
theorem c8_pong_default_branch_witness :
    (listenReadStep ⟨"", "", "", PONG, false, 0⟩).warnLogs.length = 1 :=
  (c8_pong_default_branch ⟨"", "", "", PONG, false, 0⟩ rfl).2

/-- Claim C9: after the first successful lookup stores the status, every
later call returns that identical cached value with zero HTTP requests, so
`Uptime` computes the elapsed time from the first-fetched
`lastConnectTime`; a lookup failure makes `Uptime` return the empty
string. -/
theorem c9_status_cache :
    (∀ ss : ServerStatus,
      (getServerStatus none (.ok ss)).cache = some ss ∧
      ∀ (fetch : Except String ServerStatus) (now : Int),
        getServerStatus (some ss) fetch = ⟨.ok ss, some ss, 0⟩ ∧
        Uptime now (some ss) fetch =
          (durationSecondsString (now - (ss.lastConnectTime : Int)), some ss, 0)) ∧
    (∀ (now : Int) (e : String),
      Uptime now none (.error e) = ("", none, 1)) :=
  ⟨fun _ => ⟨rfl, fun _ _ => ⟨rfl, rfl⟩⟩, fun _ _ => rfl⟩

/-- Claim C10: a file-read failure is returned to the caller as an error,
while a YAML-parse failure terminates the process through `log.Fatalf` and
is never returned through the declared error result. -/
theorem c10_read_commands :
    ∀ unmarshal : String → Except String (List Command),
      (∀ e, ReadCommandsFromFile (.error e) unmarshal = .err e) ∧
      (∀ data e, unmarshal data = .error e →
        ReadCommandsFromFile (.ok data) unmarshal = .fatal ("error: " ++ e)) ∧
      (∀ data e', (∃ e, unmarshal data = .error e) →
        ReadCommandsFromFile (.ok data) unmarshal ≠ .err e') := by
  intro u
  refine ⟨fun e => rfl, ?_, ?_⟩
  · intro data e h
    simp [ReadCommandsFromFile, h]
  · rintro data e' ⟨e, h⟩
    simp [ReadCommandsFromFile, h]

/-- Claim C10 witness: a concrete parse failure is fatal, not a returned
error. -/
theorem c10_read_commands_witness :
    ReadCommandsFromFile (.ok "commands: [")
      (fun _ => .error "yaml parse failure") =
    .fatal ("error: " ++ "yaml parse failure") :=
  (c10_read_commands (fun _ => .error "yaml parse failure")).2.1
    "commands: [" "yaml parse failure" rfl

end OwncastCommands
